import Mathlib

/-!
Verification of the charge-scheduling decision engine of
intelligent-charge-scheduler (src/scheduler.py) against its
natural-language specification.

The engine is embedded shallowly:

* instants live on a single rational time line, measured in minutes
  (datetime arithmetic is exact there; timedelta(hours=h) is h * 60);
* grid samples are (timestamp, load) pairs of rationals, in frame order;
* the sample standard deviation of the load column is passed in as a
  rational parameter (its square root is the one non-rational statistic
  of the source; every property below holds for every value of it);
* Python int() on a rational is truncation toward zero (pytrunc);
* fallible steps of the source (pandas idxmin on an empty selection,
  the possibly-unbound farthest_event local) return Option, with none
  for the raised exception;
* the source mutates the vehicle dict in place; here the same writes
  build the returned record, so a pass maps a vehicle to the action
  taken together with the written-back vehicle record.
-/

/-- Python int() applied to a rational: truncation toward zero. -/
def pytrunc (q : ℚ) : ℤ := if 0 ≤ q then ⌊q⌋ else -⌊-q⌋

/-- beginsWith s p : the char list p is a prefix of s. -/
def beginsWith : List Char → List Char → Bool
  | _, [] => true
  | [], _ :: _ => false
  | c :: cs, p :: ps => c == p && beginsWith cs ps

/-- Python's substring test (pat in s) on char lists, case sensitive. -/
def containsSub (pat : List Char) : List Char → Bool
  | [] => beginsWith [] pat
  | c :: cs => beginsWith (c :: cs) pat || containsSub pat cs

/-- The characters of the literal "http" tested on line 693 of scheduler.py. -/
def httpChars : List Char := ['h', 't', 't', 'p']

/-- A raw calendar event as calc_schedule_limits receives it: the optional
location string (as a char list) and the parsed start.dateTime instant. -/
structure RawEvent where
  location : Option (List Char)
  start : ℚ

deriving instance DecidableEq for RawEvent

/-- An event enriched by get_directions: driving distance (miles) and
time (minutes) from the home address, written into the event dict. -/
structure TravelEvent where
  location : Option (List Char)
  start : ℚ
  distance : ℚ
  time : ℚ

deriving instance DecidableEq for TravelEvent

/-- The state of the event loop of lines 690-702 of scheduler.py. -/
structure ScanState where
  longest_distance : ℚ
  valid_events : List TravelEvent
  farthest_event : Option TravelEvent

deriving instance DecidableEq for ScanState

/-- The guard on line 693 of scheduler.py: the event carries a location and
the location does not contain the case-sensitive substring "http". Exactly
the events passing this guard are submitted to get_directions. -/
def locationOk (e : RawEvent) : Bool :=
  match e.location with
  | none => false
  | some loc => !containsSub httpChars loc

/-- The events submitted for distance/duration enrichment: those passing the
location guard, in calendar order. -/
def eventsToEnrich (events : List RawEvent) : List RawEvent :=
  events.filter locationOk

/-- One iteration of the event loop (lines 692-702): enrich the event through
the directions lookup dir, keep it when its drive time exceeds 15 minutes,
and track the strictly longest distance seen so far with its event. -/
def scanStep (dir : RawEvent → ℚ × ℚ) (st : ScanState) (e : RawEvent) : ScanState :=
  if locationOk e then
    if 15 < (dir e).2 then
      if st.longest_distance < (dir e).1 then
        ⟨(dir e).1, st.valid_events ++ [⟨e.location, e.start, (dir e).1, (dir e).2⟩],
          some ⟨e.location, e.start, (dir e).1, (dir e).2⟩⟩
      else
        ⟨st.longest_distance, st.valid_events ++ [⟨e.location, e.start, (dir e).1, (dir e).2⟩],
          st.farthest_event⟩
    else st
  else st

/-- The whole event loop, from longest_distance = -1, no valid events, and
the local farthest_event still unbound (none). -/
def scanEvents (dir : RawEvent → ℚ × ℚ) (events : List RawEvent) : ScanState :=
  events.foldl (scanStep dir) ⟨-1, [], none⟩

/-- Lines 705-713: the charge limit percentage from the longest qualifying
distance (-1 when no event qualified). Python int() truncates the ramp. -/
def charge_limit_soc (longest_distance : ℚ) : ℤ :=
  if 120 ≤ longest_distance then 94
  else if 0 < longest_distance then pytrunc (longest_distance * (95 - 75) / 120 + 75)
  else 75

/-- The charge-limit planner as the specification words it, rounding the
linear ramp instead of truncating it; kept apart to compare with
charge_limit_soc, which embeds the source. -/
def chargeLimitPlannerSpec (d : ℚ) : ℤ :=
  if 120 ≤ d then 94
  else if 0 < d then round (d * (95 - 75) / 120 + 75)
  else 75

/-- Required departure instant of an enriched event (lines 717-722): its
start instant minus its drive time minus a 30 minute buffer. -/
def requiredDeparture (e : TravelEvent) : ℚ := e.start - (e.time + 30)

/-- Lines 716-727: the pre-quantization departure instant — the earlier of
the FIRST valid event's and the FARTHEST event's required departures. none
when no event qualified (the 8 am default applies instead) or when
farthest_event is unbound (a NameError in the source). -/
def departureInstant (st : ScanState) : Option ℚ :=
  match st.valid_events with
  | [] => none
  | e0 :: _ =>
    match st.farthest_event with
    | none => none
    | some fe =>
      some (if requiredDeparture e0 ≤ requiredDeparture fe
            then requiredDeparture e0 else requiredDeparture fe)

/-- Minute of the local day of the instant t, in a zone tz minutes ahead of
UTC; the hour * 60 + minute read off the localized datetime. -/
def minutesOfDay (tz : ℤ) (t : ℚ) : ℕ := ((⌊t⌋ + tz) % 1440).toNat

/-- quantize15 as the specification words it: round a minute-of-day down to
the nearest 15 minute boundary. -/
def quantize15 (m : ℕ) : ℕ := m - m % 15

/-- Lines 728-737: the scheduled departure minute of day, computed from the
hour and minute fields as hour * 60 + minute - minute % 15 and capped at 600
(10 am). -/
def schedDepMinutes (m : ℕ) : ℕ :=
  if m / 60 * 60 + m % 60 - m % 60 % 15 < 600 then m / 60 * 60 + m % 60 - m % 60 % 15
  else 600

/-- Lines 753-757: the off-peak end minute of day, same 15 minute rounding,
with no cap. -/
def offPeakEndMinutes (m : ℕ) : ℕ :=
  m / 60 * 60 + m % 60 - m % 60 % 15

/-- The charge_state fields of the vehicle record that the scheduler reads
and writes. charging_state, conn_charge_cable and scheduled_charging_mode
are the strings the API serves; instants are minutes on the shared time
line; scheduled_charging_start_time is none when the API serves null. -/
structure Vehicle where
  charge_port_door_open : Bool
  conn_charge_cable : String
  fast_charger_present : Bool
  charging_state : String
  charge_limit_soc : ℤ
  battery_level : ℤ
  charge_current_request : ℤ
  charge_current_request_max : ℤ
  scheduled_charging_mode : String
  off_peak_charging_enabled : Bool
  scheduled_charging_start_time : Option ℚ
  scheduled_departure_time : ℚ
  time_to_full_charge : ℚ
  scheduled_departure_time_minutes : ℕ
  off_peak_hours_end_time : ℕ

deriving instance DecidableEq for Vehicle

/-- Mean of the load column (df.mean() on line 682); 0 for an empty frame,
which every caller rules out. -/
def mean_load (rows : List (ℚ × ℚ)) : ℚ := (rows.map Prod.snd).sum / rows.length

/-- Lines 685-687: the load of the sample nearest in time to now, the first
such on ties (pandas idxmin); none for an empty frame, where pandas raises. -/
def current_load (now : ℚ) : List (ℚ × ℚ) → Option ℚ
  | [] => none
  | r :: rs =>
    some (rs.foldl (fun best p => if |p.1 - now| < |best.1 - now| then p else best) r).2

/-- Lines 743-749: timestamps of rows whose load is below lower while the
next row's load is at or above it (the shift(-1) pairing; the last row,
paired with NaN, never matches). -/
def crossingTimes (lower : ℚ) : List (ℚ × ℚ) → List ℚ
  | [] => []
  | [_] => []
  | a :: b :: rest =>
    (if a.2 < lower ∧ lower ≤ b.2 then [a.1] else []) ++ crossingTimes lower (b :: rest)

/-- Lines 743-751: the crossing rows at or after now, in frame order. -/
def futureCrossings (now lower : ℚ) (rows : List (ℚ × ℚ)) : List ℚ :=
  (crossingTimes lower rows).filter (fun t => 0 ≤ t - now)

/-- Lines 750-752: the first future upward crossing of the lower band — the
future crossing with the smallest time distance to now (pandas idxmin);
none when there is none, where pandas raises ValueError. -/
def off_peak_end_time (now lower : ℚ) (rows : List (ℚ × ℚ)) : Option ℚ :=
  match futureCrossings now lower rows with
  | [] => none
  | t :: ts => some (ts.foldl min t)

/-- Lines 760-789: the plus-or-minus 1 A hill-climbing current update used
while the vehicle is charging. opEnd is the off-peak end instant computed
just above it in the source. -/
def charging_current_request (now opEnd : ℚ) (v : Vehicle) : ℤ :=
  if v.scheduled_departure_time < now + v.time_to_full_charge * 60 ∧
      v.charge_current_request < v.charge_current_request_max then
    v.charge_current_request + 1
  else if now + v.time_to_full_charge * 60 < opEnd ∧ 5 < v.charge_current_request then
    v.charge_current_request - 1
  else
    v.charge_current_request

/-- Lines 790-801: the target current when the vehicle is not charging;
Python int() truncates the half rate. -/
def not_charging_current_request (currentLoad meanLoad : ℚ) (v : Vehicle) : ℤ :=
  if 12 < v.charge_current_request_max ∧ currentLoad ≤ meanLoad then
    pytrunc ((1 / 2 : ℚ) * (v.charge_current_request_max : ℚ))
  else
    v.charge_current_request_max

/-- The not-charging current rule as the specification words it, rounding the
half rate instead of truncating it; kept apart to compare with
not_charging_current_request, which embeds the source. -/
def notChargingCurrentSpec (currentLoad meanLoad : ℚ) (v : Vehicle) : ℤ :=
  if 12 < v.charge_current_request_max ∧ currentLoad ≤ meanLoad then
    round ((1 / 2 : ℚ) * (v.charge_current_request_max : ℚ))
  else
    v.charge_current_request_max

/-- Lines 715-740: the scheduled departure minute of day written into the
vehicle — 480 (8 am) when no event qualified, otherwise the quantized and
capped minute of day of the chosen departure instant; none only on the
unbound-farthest_event NameError path. -/
def scheduled_departure_minutes (tz : ℤ) (st : ScanState) : Option ℕ :=
  match st.valid_events with
  | [] => some 480
  | _ :: _ => (departureInstant st).map fun t => schedDepMinutes (minutesOfDay tz t)

/-- Lines 659-803 (calc_schedule_limits): the FullOptimize computation. rows
is the grid frame, std the sample standard deviation of its load column,
now the clock, tz the zone offset in minutes, dir the directions lookup,
events the raw calendar events and v the vehicle. none stands for the
unhandled exceptions of the source: idxmin on an empty frame, an unbound
farthest_event, and idxmin on an empty future-crossing selection. -/
def calc_schedule_limits (rows : List (ℚ × ℚ)) (std now : ℚ) (tz : ℤ)
    (dir : RawEvent → ℚ × ℚ) (events : List RawEvent) (v : Vehicle) : Option Vehicle :=
  match current_load now rows with
  | none => none
  | some cl =>
    match scheduled_departure_minutes tz (scanEvents dir events) with
    | none => none
    | some dep =>
      match off_peak_end_time now (mean_load rows - std) rows with
      | none => none
      | some opEnd =>
        some { v with
               charge_limit_soc := charge_limit_soc (scanEvents dir events).longest_distance,
               scheduled_departure_time_minutes := dep,
               off_peak_hours_end_time := offPeakEndMinutes (minutesOfDay tz opEnd),
               charge_current_request :=
                 if v.charging_state = "Charging" then charging_current_request now opEnd v
                 else not_charging_current_request cl (mean_load rows) v }

/-- The action selected by a decision pass of optimize_vehicle_charge. -/
inductive ChargeAction where
  | NoOp
  | StartCharge
  | SetCurrentOnly
  | StopCharge
  | FullOptimize

deriving instance DecidableEq for ChargeAction

/-- The guard of lines 897-901: a scheduled charging start that is set,
nonzero (Python truthiness of the timestamp) and strictly in the future. -/
def schedStartFuture (now : ℚ) (v : Vehicle) : Bool :=
  match v.scheduled_charging_start_time with
  | none => false
  | some t => decide (t ≠ 0) && decide (now < t)

/-- Lines 806-923 (optimize_vehicle_charge): the ordered decision chain, as
a function from the cycle's inputs to the selected action and the vehicle
record as the pass leaves it (the source mutates the dict in place before
issuing the matching API commands). none stands for an exception escaping
calc_schedule_limits. -/
def optimize_vehicle_charge (rows : List (ℚ × ℚ)) (std now : ℚ) (tz : ℤ)
    (dir : RawEvent → ℚ × ℚ) (events : List RawEvent) (v : Vehicle) :
    Option (ChargeAction × Vehicle) :=
  if ¬v.charge_port_door_open = true ∨ v.conn_charge_cable = "<invalid>" then
    some (ChargeAction.NoOp, v)
  else if v.fast_charger_present = true then
    some (ChargeAction.NoOp, v)
  else if v.charging_state = "NoPower" then
    some (ChargeAction.NoOp, v)
  else if 95 ≤ v.charge_limit_soc then
    if ¬v.charging_state = "Charging" then
      some (ChargeAction.StartCharge,
        { v with charge_current_request := v.charge_current_request_max })
    else if ¬v.charge_current_request = v.charge_current_request_max then
      some (ChargeAction.SetCurrentOnly,
        { v with charge_current_request := v.charge_current_request_max })
    else
      some (ChargeAction.NoOp, v)
  else if v.battery_level < 20 then
    if ¬v.charging_state = "Charging" then
      some (ChargeAction.StartCharge,
        { v with charge_current_request := v.charge_current_request_max })
    else if ¬v.charge_current_request = v.charge_current_request_max then
      some (ChargeAction.SetCurrentOnly,
        { v with charge_current_request := v.charge_current_request_max })
    else
      some (ChargeAction.NoOp, v)
  else if 20 ≤ v.battery_level ∧ v.charging_state = "Charging" ∧
      schedStartFuture now v = true then
    some (ChargeAction.StopCharge, v)
  else if v.scheduled_charging_mode = "DepartBy" ∧
      v.off_peak_charging_enabled = true then
    (calc_schedule_limits rows std now tz dir events v).map fun w => (ChargeAction.FullOptimize, w)
  else
    some (ChargeAction.NoOp, v)

/-- A concrete plugged-in vehicle record used to exercise the definitions. -/
def demoVehicle : Vehicle where
  charge_port_door_open := true
  conn_charge_cable := "SAE"
  fast_charger_present := false
  charging_state := "Charging"
  charge_limit_soc := 80
  battery_level := 50
  charge_current_request := 16
  charge_current_request_max := 32
  scheduled_charging_mode := "DepartBy"
  off_peak_charging_enabled := true
  scheduled_charging_start_time := none
  scheduled_departure_time := 480
  time_to_full_charge := 2
  scheduled_departure_time_minutes := 480
  off_peak_hours_end_time := 360

/-- The record a FullOptimize pass writes for demoVehicle on the two-sample
frame below: baseline limit, default 8 am departure, off-peak end at 11 am
local (minute 660), current slowed from 16 A to 15 A. -/
def demoCalcResult : Vehicle :=
  { demoVehicle with
    charge_limit_soc := 75,
    scheduled_departure_time_minutes := 480,
    off_peak_hours_end_time := 660,
    charge_current_request := 15 }

/-- A complete concrete run of the FullOptimize computation: two grid samples
(minute 660 at load 0, minute 720 at load 10), standard deviation 1, clock at
minute 0, UTC zone, no calendar events. -/
theorem demo_calc_eval :
    calc_schedule_limits [(660, 0), (720, 10)] 1 0 0 (fun _ => (0, 0)) [] demoVehicle =
      some demoCalcResult := by
  norm_num [calc_schedule_limits, current_load, scanEvents, mean_load,
    scheduled_departure_minutes, off_peak_end_time, futureCrossings,
    crossingTimes, offPeakEndMinutes, minutesOfDay, charge_limit_soc,
    charging_current_request, demoVehicle, demoCalcResult]
  decide

/-- Shape of a successful FullOptimize computation: every sub-step resolved,
and the output record is the input with exactly the four computed fields
written. -/
theorem calc_schedule_limits_some {rows : List (ℚ × ℚ)} {std now : ℚ} {tz : ℤ}
    {dir : RawEvent → ℚ × ℚ} {events : List RawEvent} {v w : Vehicle}
    (h : calc_schedule_limits rows std now tz dir events v = some w) :
    ∃ cl dep opEnd,
      current_load now rows = some cl ∧
      scheduled_departure_minutes tz (scanEvents dir events) = some dep ∧
      off_peak_end_time now (mean_load rows - std) rows = some opEnd ∧
      w = { v with
            charge_limit_soc := charge_limit_soc (scanEvents dir events).longest_distance,
            scheduled_departure_time_minutes := dep,
            off_peak_hours_end_time := offPeakEndMinutes (minutesOfDay tz opEnd),
            charge_current_request :=
              if v.charging_state = "Charging" then charging_current_request now opEnd v
              else not_charging_current_request cl (mean_load rows) v } := by
  unfold calc_schedule_limits at h
  cases hcl : current_load now rows with
  | none => rw [hcl] at h; exact absurd h (by simp)
  | some cl =>
    rw [hcl] at h
    cases hdep : scheduled_departure_minutes tz (scanEvents dir events) with
    | none => rw [hdep] at h; exact absurd h (by simp)
    | some dep =>
      rw [hdep] at h
      cases hop : off_peak_end_time now (mean_load rows - std) rows with
      | none => rw [hop] at h; exact absurd h (by simp)
      | some opEnd =>
        rw [hop] at h
        simp only [Option.some.injEq] at h
        exact ⟨cl, dep, opEnd, rfl, rfl, rfl, h.symm⟩

/-- A resolved departure minute is either the 8 am default from an empty
relevant set, or the quantized minute of a resolved departure instant. -/
theorem scheduled_departure_minutes_some {tz : ℤ} {st : ScanState} {dep : ℕ}
    (h : scheduled_departure_minutes tz st = some dep) :
    st.valid_events = [] ∧ dep = 480 ∨
      ∃ t, departureInstant st = some t ∧ dep = schedDepMinutes (minutesOfDay tz t) := by
  unfold scheduled_departure_minutes at h
  cases hv : st.valid_events with
  | nil =>
    rw [hv] at h
    simp only [Option.some.injEq] at h
    exact Or.inl ⟨rfl, h.symm⟩
  | cons e0 rest =>
    rw [hv] at h
    rw [Option.map_eq_some'] at h
    obtain ⟨t, ht, hdep⟩ := h
    exact Or.inr ⟨t, ht, hdep.symm⟩

/-- Every departure minute the computation writes is at most 600. -/
theorem schedDepMinutes_le (m : ℕ) : schedDepMinutes m ≤ 600 := by
  unfold schedDepMinutes
  split <;> omega

/-- An event failing the location guard leaves the loop state untouched. -/
theorem scanStep_not_ok (dir : RawEvent → ℚ × ℚ) (st : ScanState) (e : RawEvent)
    (h : ¬locationOk e = true) : scanStep dir st e = st := by
  unfold scanStep
  rw [if_neg h]

/-- The loop never looks at events the location guard excludes: scanning the
whole list and scanning just the enrichable events agree from any state. -/
theorem foldl_scanStep_filter (dir : RawEvent → ℚ × ℚ) (events : List RawEvent) :
    ∀ st : ScanState,
      events.foldl (scanStep dir) st = (eventsToEnrich events).foldl (scanStep dir) st := by
  induction events with
  | nil => intro st; rfl
  | cons e es ih =>
    intro st
    by_cases hok : locationOk e = true
    · rw [List.foldl_cons, eventsToEnrich, List.filter_cons, if_pos hok,
        List.foldl_cons, ih (scanStep dir st e)]
      rfl
    · rw [List.foldl_cons, eventsToEnrich, List.filter_cons, if_neg hok,
        scanStep_not_ok dir st e hok, ih st]
      rfl

/-- One loop step keeps the farthest event inside the valid list. -/
theorem scanStep_farthest_mem (dir : RawEvent → ℚ × ℚ) (st : ScanState) (e : RawEvent)
    (hinv : ∀ g, st.farthest_event = some g → g ∈ st.valid_events) :
    ∀ g, (scanStep dir st e).farthest_event = some g →
      g ∈ (scanStep dir st e).valid_events := by
  intro g hg
  unfold scanStep at hg ⊢
  split_ifs at hg ⊢ with h1 h2 h3
  · simp only [Option.some.injEq] at hg
    subst hg
    exact List.mem_append_right _ (List.mem_singleton.mpr rfl)
  · exact List.mem_append_left _ (hinv g hg)
  · exact hinv g hg
  · exact hinv g hg

/-- The farthest event of a finished scan, when bound, is a valid event. -/
theorem scanEvents_farthest_mem (dir : RawEvent → ℚ × ℚ) (events : List RawEvent) :
    ∀ g, (scanEvents dir events).farthest_event = some g →
      g ∈ (scanEvents dir events).valid_events := by
  unfold scanEvents
  suffices h : ∀ st : ScanState, (∀ g, st.farthest_event = some g → g ∈ st.valid_events) →
      ∀ g, (events.foldl (scanStep dir) st).farthest_event = some g →
        g ∈ (events.foldl (scanStep dir) st).valid_events by
    refine h ⟨-1, [], none⟩ ?_
    intro g hg
    exact absurd hg (by simp)
  induction events with
  | nil => intro st hinv; exact hinv
  | cons e es ih =>
    intro st hinv
    rw [List.foldl_cons]
    exact ih (scanStep dir st e) (scanStep_farthest_mem dir st e hinv)

/-- On the open ramp the charge limit is the floor of the linear map. -/
theorem charge_limit_soc_eq_floor {d : ℚ} (h0 : 0 < d) (h120 : d < 120) :
    charge_limit_soc d = ⌊d * (95 - 75) / 120 + 75⌋ := by
  unfold charge_limit_soc pytrunc
  rw [if_neg (by linarith), if_pos h0, if_pos (by nlinarith)]

/-- The charge limit always lies in the band from 75 up to but not
including 95. -/
theorem charge_limit_soc_mem (d : ℚ) :
    75 ≤ charge_limit_soc d ∧ charge_limit_soc d < 95 := by
  unfold charge_limit_soc
  split_ifs with h1 h2
  · norm_num
  · unfold pytrunc
    rw [if_pos (by nlinarith)]
    constructor
    · rw [Int.le_floor]
      push_cast
      nlinarith
    · rw [Int.floor_lt]
      push_cast
      nlinarith [not_le.mp h1]
  · norm_num

/-- The charge limit is monotone in the qualifying distance. -/
theorem charge_limit_soc_mono {d1 d2 : ℚ} (h : d1 ≤ d2) :
    charge_limit_soc d1 ≤ charge_limit_soc d2 := by
  rcases le_or_lt 120 d2 with h2 | h2
  · have e2 : charge_limit_soc d2 = 94 := by unfold charge_limit_soc; rw [if_pos h2]
    rw [e2]
    have hb := (charge_limit_soc_mem d1).2
    omega
  · rcases le_or_lt d2 0 with h20 | h20
    · have e2 : charge_limit_soc d2 = 75 := by
        unfold charge_limit_soc
        rw [if_neg (by linarith), if_neg (by linarith)]
      have e1 : charge_limit_soc d1 = 75 := by
        unfold charge_limit_soc
        rw [if_neg (by linarith), if_neg (by linarith)]
      rw [e1, e2]
    · have e2 := charge_limit_soc_eq_floor h20 h2
      rcases le_or_lt d1 0 with h10 | h10
      · have e1 : charge_limit_soc d1 = 75 := by
          unfold charge_limit_soc
          rw [if_neg (by linarith), if_neg (by linarith)]
        rw [e1, e2, Int.le_floor]
        push_cast
        nlinarith
      · have e1 := charge_limit_soc_eq_floor h10 (lt_of_le_of_lt h h2)
        rw [e1, e2]
        apply Int.floor_mono
        nlinarith

/-- C5: for every vehicle state in which the vehicle is not plugged in — the
charge port door is not open, or the charge cable connection reads <invalid>
— the decision chain's first rule fires and the pass returns NoOp with the
vehicle record untouched, regardless of every other field and of the grid,
calendar and clock inputs. -/
theorem C5_not_plugged_in_noop (rows : List (ℚ × ℚ)) (std now : ℚ) (tz : ℤ)
    (dir : RawEvent → ℚ × ℚ) (events : List RawEvent) (v : Vehicle)
    (h : v.charge_port_door_open = false ∨ v.conn_charge_cable = "<invalid>") :
    optimize_vehicle_charge rows std now tz dir events v =
      some (ChargeAction.NoOp, v) := by
  have hc : ¬v.charge_port_door_open = true ∨ v.conn_charge_cable = "<invalid>" := by
    rcases h with h | h
    · exact Or.inl (by simp [h])
    · exact Or.inr h
  unfold optimize_vehicle_charge
  rw [if_pos hc]

/-- C5 witness: a concrete unplugged vehicle gets NoOp. -/
theorem C5_not_plugged_in_noop_witness :
    optimize_vehicle_charge [] 0 0 0 (fun _ => (0, 0)) []
      { demoVehicle with charge_port_door_open := false } =
      some (ChargeAction.NoOp, { demoVehicle with charge_port_door_open := false }) :=
  C5_not_plugged_in_noop [] 0 0 0 (fun _ => (0, 0)) []
    { demoVehicle with charge_port_door_open := false } (Or.inl rfl)

/-- C8: when the forecast holds no future upward crossing of the lower band
— no row at or after now whose load is below the band while the next row's
load is at or above it — the FullOptimize computation fails (the source
raises out of pandas idxmin) and no vehicle record is produced. -/
theorem C8_no_future_crossing_fails (rows : List (ℚ × ℚ)) (std now : ℚ) (tz : ℤ)
    (dir : RawEvent → ℚ × ℚ) (events : List RawEvent) (v : Vehicle)
    (h : futureCrossings now (mean_load rows - std) rows = []) :
    calc_schedule_limits rows std now tz dir events v = none := by
  have hop : off_peak_end_time now (mean_load rows - std) rows = none := by
    unfold off_peak_end_time
    rw [h]
  unfold calc_schedule_limits
  cases hcl : current_load now rows with
  | none => rfl
  | some cl =>
    cases hdep : scheduled_departure_minutes tz (scanEvents dir events) with
    | none => rfl
    | some dep => rw [hop]

/-- C8 witness: a frame that never dips below the band makes the computation
fail on a concrete input. -/
theorem C8_no_future_crossing_fails_witness :
    calc_schedule_limits [(0, 10), (60, 10)] 1 0 0 (fun _ => (0, 0)) [] demoVehicle =
      none :=
  C8_no_future_crossing_fails [(0, 10), (60, 10)] 1 0 0 (fun _ => (0, 0)) [] demoVehicle
    (by norm_num [futureCrossings, crossingTimes, mean_load])

/-- C9: whenever the scan of the calendar yields no relevant event, a
successful FullOptimize pass writes exactly 480 minutes of day (8 am) as the
scheduled departure, for every such input. -/
theorem C9_no_events_default_departure (rows : List (ℚ × ℚ)) (std now : ℚ) (tz : ℤ)
    (dir : RawEvent → ℚ × ℚ) (events : List RawEvent) (v w : Vehicle)
    (hvalid : (scanEvents dir events).valid_events = [])
    (h : calc_schedule_limits rows std now tz dir events v = some w) :
    w.scheduled_departure_time_minutes = 480 := by
  obtain ⟨cl, dep, opEnd, hcl, hdep, hop, hw⟩ := calc_schedule_limits_some h
  rcases scheduled_departure_minutes_some hdep with ⟨-, hdef⟩ | ⟨t, ht, -⟩
  · rw [hw, hdef]
  · unfold departureInstant at ht
    rw [hvalid] at ht
    exact absurd ht (by simp)

/-- C9 witness: the concrete empty-calendar run departs at 8 am. -/
theorem C9_no_events_default_departure_witness :
    demoCalcResult.scheduled_departure_time_minutes = 480 :=
  C9_no_events_default_departure [(660, 0), (720, 10)] 1 0 0 (fun _ => (0, 0)) []
    demoVehicle demoCalcResult rfl demo_calc_eval

/-- C3: while the vehicle is charging in the FullOptimize branch, the current
update is a one-amp hill climb — plus 1 when the projected completion
(now + time_to_full_charge hours) lies past the scheduled departure and the
requested current is strictly below the maximum; otherwise minus 1 when the
projected completion lies before the off-peak end and the requested current
exceeds 5 A; otherwise unchanged — so every cycle moves the request by
exactly +1, -1 or 0, and a successful FullOptimize pass writes exactly this
update. -/
theorem C3_charging_hill_climb (rows : List (ℚ × ℚ)) (std now opEnd : ℚ) (tz : ℤ)
    (dir : RawEvent → ℚ × ℚ) (events : List RawEvent) (v w : Vehicle)
    (hch : v.charging_state = "Charging") :
    (v.scheduled_departure_time < now + v.time_to_full_charge * 60 →
      v.charge_current_request < v.charge_current_request_max →
      charging_current_request now opEnd v = v.charge_current_request + 1) ∧
    (¬(v.scheduled_departure_time < now + v.time_to_full_charge * 60 ∧
        v.charge_current_request < v.charge_current_request_max) →
      now + v.time_to_full_charge * 60 < opEnd → 5 < v.charge_current_request →
      charging_current_request now opEnd v = v.charge_current_request - 1) ∧
    (¬(v.scheduled_departure_time < now + v.time_to_full_charge * 60 ∧
        v.charge_current_request < v.charge_current_request_max) →
      ¬(now + v.time_to_full_charge * 60 < opEnd ∧ 5 < v.charge_current_request) →
      charging_current_request now opEnd v = v.charge_current_request) ∧
    (charging_current_request now opEnd v = v.charge_current_request + 1 ∨
      charging_current_request now opEnd v = v.charge_current_request - 1 ∨
      charging_current_request now opEnd v = v.charge_current_request) ∧
    (calc_schedule_limits rows std now tz dir events v = some w →
      off_peak_end_time now (mean_load rows - std) rows = some opEnd →
      w.charge_current_request = charging_current_request now opEnd v) := by
  refine ⟨?_, ?_, ?_, ?_, ?_⟩
  · intro ha hb
    unfold charging_current_request
    rw [if_pos ⟨ha, hb⟩]
  · intro hn ha hb
    unfold charging_current_request
    rw [if_neg hn, if_pos ⟨ha, hb⟩]
  · intro hn1 hn2
    unfold charging_current_request
    rw [if_neg hn1, if_neg hn2]
  · unfold charging_current_request
    split_ifs
    · exact Or.inl rfl
    · exact Or.inr (Or.inl rfl)
    · exact Or.inr (Or.inr rfl)
  · intro hcalc hop
    obtain ⟨cl, dep, opEnd0, hcl, hdep, hop0, hw⟩ := calc_schedule_limits_some hcalc
    have hoe : opEnd0 = opEnd := by
      have := hop0.symm.trans hop
      exact Option.some_injective _ this
    rw [hw, hoe]
    simp [hch]

/-- C3 witness: the concrete charging demo vehicle moves by one of the three
allowed steps. -/
theorem C3_charging_hill_climb_witness :
    charging_current_request 0 1000 demoVehicle = demoVehicle.charge_current_request + 1 ∨
    charging_current_request 0 1000 demoVehicle = demoVehicle.charge_current_request - 1 ∨
    charging_current_request 0 1000 demoVehicle = demoVehicle.charge_current_request :=
  (C3_charging_hill_climb [] 0 0 1000 0 (fun _ => (0, 0)) [] demoVehicle demoVehicle
    rfl).2.2.2.1

/-- C10: an event is submitted for distance enrichment exactly when it has a
location free of the case-sensitive substring "http"; only such events reach
the scan; an upper-case HTTP location is not excluded, a lower-case http
location and a missing location are. -/
theorem C10_enrichment_guard (dir : RawEvent → ℚ × ℚ) (events : List RawEvent)
    (e : RawEvent) :
    (e ∈ eventsToEnrich events ↔ e ∈ events ∧ locationOk e = true) ∧
    (locationOk e = true ↔
      ∃ loc, e.location = some loc ∧ containsSub httpChars loc = false) ∧
    scanEvents dir events = scanEvents dir (eventsToEnrich events) ∧
    locationOk ⟨some ['H', 'T', 'T', 'P', ':', '/', '/', 'x'], 0⟩ = true ∧
    locationOk ⟨some ['g', 'o', ' ', 'h', 't', 't', 'p', ':', '/', '/', 'x'], 0⟩ = false ∧
    locationOk ⟨none, 0⟩ = false := by
  refine ⟨List.mem_filter, ?_, ?_, by decide, by decide, by decide⟩
  · cases hl : e.location with
    | none => simp [locationOk, hl]
    | some loc => simp [locationOk, hl]
  · unfold scanEvents
    exact foldl_scanStep_filter dir events ⟨-1, [], none⟩

/-- A concrete directions lookup, keyed on the start instant: the event at
100 is 5 miles and 20 minutes away, the one at 20000 is 50 miles and 20
minutes, every other one 10 miles and 20 minutes. -/
def cexDir : RawEvent → ℚ × ℚ := fun e =>
  if e.start = 100 then (5, 20) else if e.start = 20000 then (50, 20) else (10, 20)

/-- Three relevant events: the middle one requires the earliest departure but
is neither the first valid event nor the farthest one. -/
def cexEvents : List RawEvent :=
  [⟨some ['a'], 10000⟩, ⟨some ['b'], 100⟩, ⟨some ['c'], 20000⟩]

/-- C1 counterexample: on the three-event calendar the chosen
pre-quantization departure instant is 9950 (the first event's), although the
middle relevant event requires departure at instant 50 — so the chosen
instant is not the minimum of start - drive - 30 over all relevant events. -/
theorem C1_min_over_all_cex :
    departureInstant (scanEvents cexDir cexEvents) = some 9950 ∧
    (⟨some ['b'], 100, 5, 20⟩ : TravelEvent) ∈ (scanEvents cexDir cexEvents).valid_events ∧
    requiredDeparture ⟨some ['b'], 100, 5, 20⟩ = 50 ∧
    ¬(9950 : ℚ) ≤ 50 := by
  refine ⟨?_, ?_, ?_, by norm_num⟩
  · norm_num [scanEvents, scanStep, cexDir, cexEvents, locationOk, containsSub,
      beginsWith, httpChars, departureInstant, requiredDeparture]
  · norm_num [scanEvents, scanStep, cexDir, cexEvents, locationOk, containsSub,
      beginsWith, httpChars]
  · norm_num [requiredDeparture]

/-- C1 amended: the pre-quantization departure instant is the minimum of the
FIRST valid event's and the FARTHEST valid event's required departures
(start - drive - 30 each), not of the whole relevant set; the farthest event
is itself one of the valid events. -/
theorem C1_departure_min_first_farthest (dir : RawEvent → ℚ × ℚ)
    (events : List RawEvent) (e0 fe : TravelEvent) (rest : List TravelEvent)
    (hv : (scanEvents dir events).valid_events = e0 :: rest)
    (hf : (scanEvents dir events).farthest_event = some fe) :
    departureInstant (scanEvents dir events) =
      some (min (requiredDeparture e0) (requiredDeparture fe)) ∧
    e0 ∈ (scanEvents dir events).valid_events ∧
    fe ∈ (scanEvents dir events).valid_events := by
  refine ⟨?_, ?_, scanEvents_farthest_mem dir events fe hf⟩
  · unfold departureInstant
    rw [hv, hf, min_def]
  · rw [hv]
    exact List.mem_cons_self e0 rest

/-- C1 witness: on the three-event calendar the chosen instant is exactly the
minimum of the first and farthest required departures. -/
theorem C1_departure_min_first_farthest_witness :
    departureInstant (scanEvents cexDir cexEvents) =
      some (min (requiredDeparture ⟨some ['a'], 10000, 10, 20⟩)
        (requiredDeparture ⟨some ['c'], 20000, 50, 20⟩)) ∧
    (⟨some ['a'], 10000, 10, 20⟩ : TravelEvent) ∈ (scanEvents cexDir cexEvents).valid_events ∧
    (⟨some ['c'], 20000, 50, 20⟩ : TravelEvent) ∈ (scanEvents cexDir cexEvents).valid_events :=
  C1_departure_min_first_farthest cexDir cexEvents ⟨some ['a'], 10000, 10, 20⟩
    ⟨some ['c'], 20000, 50, 20⟩ [⟨some ['b'], 100, 5, 20⟩, ⟨some ['c'], 20000, 50, 20⟩]
    (by norm_num [scanEvents, scanStep, cexDir, cexEvents, locationOk, containsSub,
      beginsWith, httpChars])
    (by norm_num [scanEvents, scanStep, cexDir, cexEvents, locationOk, containsSub,
      beginsWith, httpChars])

/-- C2 counterexample: at 59 miles the source truncates the ramp to 84 while
the spec's rounded ramp gives 85, so the planner does not compute
round(d * (95 - 75) / 120 + 75) on the open interval. -/
theorem C2_round_cex :
    charge_limit_soc 59 = 84 ∧ chargeLimitPlannerSpec 59 = 85 ∧
    ¬charge_limit_soc 59 = chargeLimitPlannerSpec 59 := by
  refine ⟨?_, ?_, ?_⟩ <;>
    norm_num [charge_limit_soc, chargeLimitPlannerSpec, pytrunc, round_eq]

/-- C2 amended: the planner maps the farthest distance d to 94 for d at or
above 120, to the TRUNCATION (floor) of d * (95 - 75) / 120 + 75 — not its
rounding — for 0 < d < 120, and to 75 for d = 0; it is monotone
non-decreasing, stays in the band [75, 95), and takes the values 75, 94 and
85 at 0, 120 and 60 miles. -/
theorem C2_charge_limit_amended (d d1 d2 : ℚ) (h12 : d1 ≤ d2) :
    (120 ≤ d → charge_limit_soc d = 94) ∧
    (0 < d → d < 120 → charge_limit_soc d = ⌊d * (95 - 75) / 120 + 75⌋) ∧
    (d = 0 → charge_limit_soc d = 75) ∧
    charge_limit_soc d1 ≤ charge_limit_soc d2 ∧
    (75 ≤ charge_limit_soc d ∧ charge_limit_soc d < 95) ∧
    charge_limit_soc 0 = 75 ∧
    charge_limit_soc 120 = 94 ∧
    charge_limit_soc 60 = 85 := by
  refine ⟨?_, fun h0 h120 => charge_limit_soc_eq_floor h0 h120, ?_,
    charge_limit_soc_mono h12, charge_limit_soc_mem d,
    by norm_num [charge_limit_soc],
    by norm_num [charge_limit_soc],
    by norm_num [charge_limit_soc, pytrunc]⟩
  · intro h
    unfold charge_limit_soc
    rw [if_pos h]
  · intro h
    subst h
    norm_num [charge_limit_soc]

/-- C2 witness: the amended planner facts at 60, 0 and 130 miles. -/
theorem C2_charge_limit_amended_witness :
    charge_limit_soc 0 ≤ charge_limit_soc 130 ∧ charge_limit_soc 60 = 85 := by
  have h := C2_charge_limit_amended 60 0 130 (by norm_num)
  exact ⟨h.2.2.2.1, h.2.2.2.2.2.2.2⟩

/-- C4 counterexample: not charging, favorable load, a 15 A circuit — the
source truncates half the maximum to 7 A while the spec's rounding gives
8 A, so the target is not round(0.5 * max_current). -/
theorem C4_round_cex :
    not_charging_current_request 0 0
        { demoVehicle with charge_current_request_max := 15 } = 7 ∧
    notChargingCurrentSpec 0 0
        { demoVehicle with charge_current_request_max := 15 } = 8 ∧
    ¬not_charging_current_request 0 0
        { demoVehicle with charge_current_request_max := 15 } =
      notChargingCurrentSpec 0 0
        { demoVehicle with charge_current_request_max := 15 } := by
  refine ⟨?_, ?_, ?_⟩ <;>
    norm_num [not_charging_current_request, notChargingCurrentSpec, pytrunc,
      round_eq, demoVehicle]

/-- C4 amended: when the vehicle is not charging, a circuit maximum above
12 A together with a current load at or below the mean targets the
TRUNCATION (floor) of half the maximum — not its rounding — and every other
not-charging case targets the maximum itself. -/
theorem C4_not_charging_current_amended (cl ml : ℚ) (v : Vehicle) :
    (12 < v.charge_current_request_max → cl ≤ ml →
      not_charging_current_request cl ml v =
        ⌊(1 / 2 : ℚ) * (v.charge_current_request_max : ℚ)⌋) ∧
    (¬(12 < v.charge_current_request_max ∧ cl ≤ ml) →
      not_charging_current_request cl ml v = v.charge_current_request_max) := by
  constructor
  · intro h1 h2
    have hpos : (0 : ℚ) ≤ (1 / 2 : ℚ) * (v.charge_current_request_max : ℚ) := by
      have : (12 : ℚ) < (v.charge_current_request_max : ℚ) := by exact_mod_cast h1
      linarith
    unfold not_charging_current_request pytrunc
    rw [if_pos ⟨h1, h2⟩, if_pos hpos]
  · intro hn
    unfold not_charging_current_request
    rw [if_neg hn]

/-- C6 counterexample: a FullOptimize run whose off-peak end falls at 11 am
local writes minute 660 into the vehicle — the off-peak output is quantized
but NOT capped at 600, so the claim that both quantized outputs are always
at most 600 fails. -/
theorem C6_cap_cex :
    calc_schedule_limits [(660, 0), (720, 10)] 1 0 0 (fun _ => (0, 0)) [] demoVehicle =
      some demoCalcResult ∧
    demoCalcResult.off_peak_hours_end_time = 660 ∧
    ¬demoCalcResult.off_peak_hours_end_time ≤ 600 := by
  refine ⟨demo_calc_eval, rfl, by norm_num [demoCalcResult, demoVehicle]⟩

/-- C6 amended: both time-of-day outputs are quantized down to 15 minute
boundaries — on any minute of day m below 1440 the departure output equals
min (quantize15 m) 600 and so never exceeds 600, and the off-peak output
equals quantize15 m, bounded only by 1425; every departure minute a
successful FullOptimize pass writes is at most 600. -/
theorem C6_quantization_amended (m : ℕ) (hm : m < 1440) (rows : List (ℚ × ℚ))
    (std now : ℚ) (tz : ℤ) (dir : RawEvent → ℚ × ℚ) (events : List RawEvent)
    (v w : Vehicle) :
    schedDepMinutes m = min (quantize15 m) 600 ∧
    schedDepMinutes m ≤ 600 ∧
    offPeakEndMinutes m = quantize15 m ∧
    offPeakEndMinutes m ≤ 1425 ∧
    (calc_schedule_limits rows std now tz dir events v = some w →
      w.scheduled_departure_time_minutes ≤ 600) := by
  refine ⟨?_, schedDepMinutes_le m, ?_, ?_, ?_⟩
  · unfold schedDepMinutes quantize15
    split <;> omega
  · unfold offPeakEndMinutes quantize15
    omega
  · unfold offPeakEndMinutes
    omega
  · intro h
    obtain ⟨cl, dep, opEnd, hcl, hdep, hop, hw⟩ := calc_schedule_limits_some h
    rcases scheduled_departure_minutes_some hdep with ⟨-, hdef⟩ | ⟨t, -, hq⟩
    · rw [hw, hdef]
      norm_num
    · rw [hw, hq]
      exact schedDepMinutes_le (minutesOfDay tz t)

/-- C6 witness: the quantization facts at minute 485 and on the concrete
FullOptimize run. -/
theorem C6_quantization_amended_witness :
    schedDepMinutes 485 = min (quantize15 485) 600 ∧
    demoCalcResult.scheduled_departure_time_minutes ≤ 600 := by
  have h := C6_quantization_amended 485 (by norm_num) [(660, 0), (720, 10)] 1 0 0
    (fun _ => (0, 0)) [] demoVehicle demoCalcResult
  exact ⟨h.1, h.2.2.2.2 demo_calc_eval⟩

/-- A concrete vehicle hitting the start-charge rule: plugged in, limit set
to 98 percent, not charging. -/
def v7 : Vehicle := { demoVehicle with charge_limit_soc := 98, charging_state := "Stopped" }

/-- C7 counterexample: the decision pass does not leave the vehicle state
unchanged — on a concrete plugged-in vehicle with a 98 percent limit it
returns StartCharge and a vehicle record whose charge_current_request was
rewritten from 16 A to the 32 A maximum, mirroring the in-place mutation of
the source. -/
theorem C7_mutation_cex :
    optimize_vehicle_charge [] 0 0 0 (fun _ => (0, 0)) [] v7 =
      some (ChargeAction.StartCharge, { v7 with charge_current_request := 32 }) ∧
    ¬({ v7 with charge_current_request := 32 } : Vehicle).charge_current_request =
      v7.charge_current_request := by
  constructor
  · decide
  · decide

/-- C7 amended: the pass returns the action with the written-back vehicle
record; at most the four computed fields (charge_current_request,
charge_limit_soc, scheduled_departure_time_minutes, off_peak_hours_end_time)
change, and every other field of the input is preserved. -/
theorem C7_decision_frame (rows : List (ℚ × ℚ)) (std now : ℚ) (tz : ℤ)
    (dir : RawEvent → ℚ × ℚ) (events : List RawEvent) (v w : Vehicle)
    (a : ChargeAction)
    (h : optimize_vehicle_charge rows std now tz dir events v = some (a, w)) :
    w.charge_port_door_open = v.charge_port_door_open ∧
    w.conn_charge_cable = v.conn_charge_cable ∧
    w.fast_charger_present = v.fast_charger_present ∧
    w.charging_state = v.charging_state ∧
    w.battery_level = v.battery_level ∧
    w.charge_current_request_max = v.charge_current_request_max ∧
    w.scheduled_charging_mode = v.scheduled_charging_mode ∧
    w.off_peak_charging_enabled = v.off_peak_charging_enabled ∧
    w.scheduled_charging_start_time = v.scheduled_charging_start_time ∧
    w.scheduled_departure_time = v.scheduled_departure_time ∧
    w.time_to_full_charge = v.time_to_full_charge := by
  unfold optimize_vehicle_charge at h
  split_ifs at h <;>
    first
    | (simp only [Option.some.injEq, Prod.mk.injEq] at h
       obtain ⟨-, hw⟩ := h
       subst hw
       exact ⟨rfl, rfl, rfl, rfl, rfl, rfl, rfl, rfl, rfl, rfl, rfl⟩)
    | (rw [Option.map_eq_some'] at h
       obtain ⟨w0, hcalc, heq⟩ := h
       simp only [Prod.mk.injEq] at heq
       obtain ⟨-, hw⟩ := heq
       subst hw
       obtain ⟨cl, dep, opEnd, -, -, -, hw0⟩ := calc_schedule_limits_some hcalc
       subst hw0
       exact ⟨rfl, rfl, rfl, rfl, rfl, rfl, rfl, rfl, rfl, rfl, rfl⟩)

/-- C7 witness: on the concrete StartCharge run every untouched field of the
returned record matches the input. -/
theorem C7_decision_frame_witness :
    ({ v7 with charge_current_request := 32 } : Vehicle).battery_level =
        v7.battery_level ∧
    ({ v7 with charge_current_request := 32 } : Vehicle).charging_state =
        v7.charging_state := by
  have h := C7_decision_frame [] 0 0 0 (fun _ => (0, 0)) [] v7
    { v7 with charge_current_request := 32 } ChargeAction.StartCharge (by decide)
  exact ⟨h.2.2.2.2.1, h.2.2.2.1⟩
